import Mathlib

/-!
# Verification of the product-catalog RAG indexer

Shallow embedding of `src/modules/ai-agents/product_rag/indexer.py`:
the `ProductDocument` data model, the document formatter
`ProductIndexer._product_to_text`, the batch indexing driver
`ProductIndexer.index_products`, and the search facade
`ProductIndexer.search`.

Modelling conventions:
* Python exceptions are modelled by `Except PyErr`; the per-item
  `try/except` of `index_products` is modelled by the per-record step
  function `indexStep`.
* Python `float` prices and scores are modelled as `Rat`; the `.2f`
  formatting of a present price is modelled by `fmt2` (round-half-up to
  cents).  No claim depends on the digits produced, only on whether
  formatting succeeds.
* The external vector-store client is modelled by `VectorDb σ`: a
  deterministic stateful client with an `add` call that may fail
  (returning `false` models the Python call raising) and a `search`
  call returning ranked hits.  The client state `σ` is threaded through
  every operation, so "the store was not called" is expressed as "the
  client state is unchanged".
* Python `range(0, stop, step)` with its `step == 0` `ValueError` and
  its empty result for negative `step` (since `start = 0 ≤ stop`) is
  modelled by `pyRangeZ`; a slice `l[i : i+bs]` is `(l.drop i).take bs`.
-/

/-- Python exceptions that the embedded code can raise.
`typeError` models `TypeError: unsupported format string passed to
NoneType.__format__` (line 75 of indexer.py), `valueError` models
`ValueError: range() arg 3 must not be zero`, and `notReady` models
`RuntimeError("Indexer not initialized. Call initialize() first.")`. -/
inductive PyErr where
  | typeError
  | valueError
  | notReady
deriving DecidableEq, Repr

/-- The `ProductDocument` pydantic model (indexer.py lines 18-31). -/
structure ProductDocument where
  id : String
  sku : String
  name : String
  description : String
  category : String
  subcategory : Option String := none
  specs : List (String × String) := []
  b2b_price : Option Rat := none
  retail_price : Option Rat := none
  stock : Int := 0
  brand : Option String := none
  tags : List String := []
deriving DecidableEq, Repr

/-- The metadata mapping built in `index_products` (lines 109-115). -/
structure Metadata where
  product_id : String
  sku : String
  category : String
  b2b_price : Option Rat
  stock : Int
deriving DecidableEq, Repr

/-- One search result as reshaped by `search` (lines 176-180). -/
structure SearchHit where
  text : String
  metadata : Metadata
  score : Rat
deriving DecidableEq, Repr

/-- The statistics dictionary returned by `index_products` (lines 124-130). -/
structure IndexingReport where
  indexed : Nat
  errors : Nat
  total : Nat
  duration_seconds : Rat
  products_per_second : Rat
deriving DecidableEq, Repr

/-- The external vector-store client (LanceDb in the source), modelled as a
deterministic state machine over an abstract state `σ`.  `addFn` returns the
new client state and `true` on success, `false` when the Python call would
raise; `searchFn` returns the new state and the ranked hits. -/
structure VectorDb (σ : Type) where
  addFn : σ → String → Metadata → σ × Bool
  searchFn : σ → String → Nat → σ × List SearchHit

/-- The `ProductIndexer` object state: `initialized` is `_initialized`;
`db`/`dbState` model `self.vector_db` (the client `initialize` installs,
together with its current external state). -/
structure ProductIndexer (σ : Type) where
  table_name : String
  db : VectorDb σ
  dbState : σ
  initialized : Bool

/-- `ProductIndexer.__init__`: `_initialized = False` (lines 44-48). -/
def ProductIndexer.mk0 (table_name : String) (db : VectorDb σ) (s : σ) :
    ProductIndexer σ :=
  { table_name := table_name, db := db, dbState := s, initialized := false }

/-- The `initialize()` method of `ProductIndexer`: sets `_initialized = True`
(lines 50-58). -/
def ProductIndexer.initializeFn (ix : ProductIndexer σ) : ProductIndexer σ :=
  { ix with initialized := true }

/-- Python `str.strip()`: drop leading and trailing whitespace. -/
def pyStrip (s : String) : String :=
  String.mk (((s.toList.dropWhile Char.isWhitespace).reverse.dropWhile
    Char.isWhitespace).reverse)

/-- Python `x or d` for an optional string `x`: `None` and the empty string
are falsy, so both fall back to the default `d`. -/
def pyOrStr (o : Option String) (d : String) : String :=
  match o with
  | none => d
  | some s => if s = "" then d else s

/-- Python `f"{x:.2f}"` for a present price, modelled on rationals:
round-half-up to cents, then render with two decimals. -/
def fmt2 (q : Rat) : String :=
  let c : Int := (q * 100 + 1 / 2).floor
  let a : Nat := c.natAbs
  (if c < 0 then "-" else "") ++ toString (a / 100) ++ "." ++
    (if a % 100 < 10 then "0" else "") ++ toString (a % 100)

/-- `ProductIndexer._product_to_text` (lines 60-78).  The f-string on line 75
reads `B2B Price: €{product.b2b_price:.2f} if product.b2b_price else
'Contact for pricing'`: only `{product.b2b_price:.2f}` is a replacement
field, the conditional is literal text.  Hence a `None` price raises
`TypeError` (formatting `None` with `.2f`), and a present price produces the
trailing literal ` if product.b2b_price else 'Contact for pricing'` in the
output line. -/
def ProductIndexer._product_to_text (product : ProductDocument) :
    Except PyErr String :=
  let specs_text :=
    if product.specs.isEmpty then ""
    else String.intercalate ", " (product.specs.map (fun kv => kv.1 ++ ": " ++ kv.2))
  let tags_text := if product.tags.isEmpty then "" else String.intercalate ", " product.tags
  match product.b2b_price with
  | none => Except.error PyErr.typeError
  | some price =>
      Except.ok (pyStrip
        ("\nProduct: " ++ product.name ++
         "\nSKU: " ++ product.sku ++
         "\nCategory: " ++ product.category ++ " > " ++ pyOrStr product.subcategory "General" ++
         "\nBrand: " ++ pyOrStr product.brand "N/A" ++
         "\nDescription: " ++ product.description ++
         "\nSpecifications: " ++ specs_text ++
         "\nB2B Price: €" ++ fmt2 price ++ " if product.b2b_price else 'Contact for pricing'" ++
         "\nStock: " ++ toString product.stock ++ " units" ++
         "\nTags: " ++ tags_text ++
         "\n        "))

/-- The metadata dictionary built for one product (lines 109-115). -/
def metadataOf (product : ProductDocument) : Metadata :=
  { product_id := product.id
    sku := product.sku
    category := product.category
    b2b_price := product.b2b_price
    stock := product.stock }

/-- The body of the inner `for product in batch` loop (lines 106-120):
format, build metadata, submit to the store; on success increment
`indexed_count`, on any exception increment `error_count` and continue.
The accumulator is `(client state, indexed_count, error_count)`. -/
def indexStep (db : VectorDb σ) (acc : σ × Nat × Nat) (product : ProductDocument) :
    σ × Nat × Nat :=
  match acc with
  | (s, ind, err) =>
    match ProductIndexer._product_to_text product with
    | Except.error _ => (s, ind, err + 1)
    | Except.ok text =>
        match db.addFn s text (metadataOf product) with
        | (s2, true) => (s2, ind + 1, err)
        | (s2, false) => (s2, ind, err + 1)

/-- Python `range(0, stop, step)` for an `int` step: `step = 0` raises
`ValueError`; a negative step yields no iterations (start `0` is never
greater than the non-negative stop); a positive step yields
`0, step, 2*step, ...` below `stop`, i.e. `⌈stop/step⌉` values. -/
def pyRangeZ (stop : Nat) (step : Int) : Except PyErr (List Nat) :=
  if step = 0 then Except.error PyErr.valueError
  else if step < 0 then Except.ok []
  else Except.ok (List.range' 0 ((stop + step.toNat - 1) / step.toNat) step.toNat)

/-- `ProductIndexer.index_products` (lines 80-130).  `duration` stands for
the wall-clock `(end_time - start_time).total_seconds()`, an input of the
model since time is external.  Returns the report (or the uncaught
exception) together with the final client state; on an uncaught exception
the client state is the untouched `ix.dbState`. -/
def ProductIndexer.index_products (ix : ProductIndexer σ)
    (products : List ProductDocument) (batch_size : Int) (duration : Rat) :
    Except PyErr IndexingReport × σ :=
  if ix.initialized = false then (Except.error PyErr.notReady, ix.dbState)
  else
    match pyRangeZ products.length batch_size with
    | Except.error e => (Except.error e, ix.dbState)
    | Except.ok starts =>
        let res := starts.foldl
          (fun acc i => ((products.drop i).take batch_size.toNat).foldl (indexStep ix.db) acc)
          (ix.dbState, 0, 0)
        (Except.ok
          { indexed := res.2.1
            errors := res.2.2
            total := products.length
            duration_seconds := duration
            products_per_second := (res.2.1 : Rat) / max duration 1 }, res.1)

/-- `ProductIndexer.search` (lines 153-183): raise `NotReady` if not
initialized, issue one store query with `limit`, keep the hits whose score
is `≥ min_score` in store order. -/
def ProductIndexer.search (ix : ProductIndexer σ) (query : String)
    (limit : Nat) (min_score : Rat) : Except PyErr (List SearchHit) × σ :=
  if ix.initialized = false then (Except.error PyErr.notReady, ix.dbState)
  else
    let res := ix.db.searchFn ix.dbState query limit
    (Except.ok (res.2.filter (fun r => decide (r.score ≥ min_score))), res.1)

/-! ## Concrete fixtures for examples, witnesses and counterexamples -/

/-- A vector-store client with trivial state whose `add` always succeeds and
whose `search` returns no hits. -/
def unitDb : VectorDb Unit :=
  { addFn := fun _ _ _ => ((), true), searchFn := fun _ _ _ => ((), []) }

/-- An initialized indexer over `unitDb`. -/
def unitIx : ProductIndexer Unit :=
  ProductIndexer.initializeFn (ProductIndexer.mk0 "product_catalog" unitDb ())

/-- A numbered well-priced record. -/
def mkRec (n : Nat) : ProductDocument :=
  { id := toString n, sku := toString n, name := "P", description := "D",
    category := "C", b2b_price := some 1 }

/-- A vector-store client whose `add` raises for every third record: its
state counts the `add` calls and the 3rd, 6th, 9th, ... call fails. -/
def everyThirdDb : VectorDb Nat :=
  { addFn := fun k _ _ => (k + 1, decide ((k + 1) % 3 ≠ 0)),
    searchFn := fun k _ _ => (k, []) }

/-- An initialized indexer over `everyThirdDb`. -/
def everyThirdIx : ProductIndexer Nat :=
  ProductIndexer.initializeFn (ProductIndexer.mk0 "product_catalog" everyThirdDb 0)

/-- A vector-store client that records every `search` call it receives in
its state (a call log), answering from a fixed response function. -/
def loggingDb (resp : String → Nat → List SearchHit) :
    VectorDb (List (String × Nat)) :=
  { addFn := fun s _ _ => (s, true),
    searchFn := fun s q l => (s ++ [(q, l)], resp q l) }

/-- Shared metadata for example search hits. -/
def mdEx : Metadata :=
  { product_id := "1", sku := "A", category := "C", b2b_price := none,
    stock := 0 }

/-- Example hit with score 0.9. -/
def hit09 : SearchHit := { text := "t1", metadata := mdEx, score := 9/10 }

/-- Example hit with score 0.6. -/
def hit06 : SearchHit := { text := "t2", metadata := mdEx, score := 6/10 }

/-- Example hit with score 0.3. -/
def hit03 : SearchHit := { text := "t3", metadata := mdEx, score := 3/10 }

/-- A store answering every query with scores [0.9, 0.6, 0.3]. -/
def respEx : String → Nat → List SearchHit := fun _ _ => [hit09, hit06, hit03]

/-- An initialized indexer over the logging client with `respEx` answers. -/
def searchExIx : ProductIndexer (List (String × Nat)) :=
  ProductIndexer.initializeFn (ProductIndexer.mk0 "product_catalog" (loggingDb respEx) [])

/-- The record of spec property 6: sku "X1", category "LED", absent
subcategory, empty specs, absent B2B price, stock 0, no tags. -/
def x1Record : ProductDocument :=
  { id := "X1", sku := "X1", name := "Panel", description := "",
    category := "LED", subcategory := none, specs := [], b2b_price := none,
    stock := 0, tags := [] }

/-- A minimal well-formed record whose optional B2B price is absent. -/
def priceLessRecord : ProductDocument :=
  { id := "1", sku := "S1", name := "N", description := "D", category := "C",
    b2b_price := none }

/-- A well-formed record whose B2B price is present (all other optional
fields absent). -/
def pricedRecord : ProductDocument :=
  { id := "2", sku := "S2", name := "N", description := "D", category := "C",
    b2b_price := some 10 }


/-! ## Batching lemmas

The `for i in range(0, len(products), batch_size)` / `products[i:i+batch_size]`
loop of `index_products` is a fold over slice start indices.  For a positive
step the slices partition the input in order, so the nested fold equals the
plain fold over the whole list. -/

theorem foldl_range'_shift {β : Type _} (g : β → Nat → β) (bs : Nat) :
    ∀ (n s t : Nat) (acc : β),
      (List.range' (s + t) n bs).foldl g acc
        = (List.range' s n bs).foldl (fun a i => g a (i + t)) acc := by
  intro n
  induction n with
  | zero => intro s t acc; rfl
  | succ n ih =>
      intro s t acc
      rw [List.range'_succ, List.range'_succ]
      simp only [List.foldl_cons]
      have h1 : s + t + bs = (s + bs) + t := by omega
      rw [h1]
      exact ih (s + bs) t (g acc (s + t))

theorem foldl_batches {α β : Type _} (f : β → α → β) (bs : Nat) (hbs : 1 ≤ bs) :
    ∀ (k : Nat) (l : List α), l.length ≤ k → ∀ (acc : β),
      (List.range' 0 ((l.length + bs - 1) / bs) bs).foldl
        (fun a i => ((l.drop i).take bs).foldl f a) acc
        = l.foldl f acc := by
  intro k
  induction k with
  | zero =>
      intro l hl acc
      have hnil : l = [] := List.eq_nil_of_length_eq_zero (Nat.le_zero.mp hl)
      subst hnil
      have h0 : ((List.length ([] : List α)) + bs - 1) / bs = 0 :=
        Nat.div_eq_of_lt (by simp; omega)
      rw [h0]
      rfl
  | succ k ih =>
      intro l hl acc
      cases l with
      | nil =>
          have h0 : ((List.length ([] : List α)) + bs - 1) / bs = 0 :=
            Nat.div_eq_of_lt (by simp; omega)
          rw [h0]
          rfl
      | cons x xs =>
          have hlen : (x :: xs).length = xs.length + 1 := rfl
          have hn : ((x :: xs).length + bs - 1) / bs
              = (((x :: xs).drop bs).length + bs - 1) / bs + 1 := by
            rw [List.length_drop]
            rcases le_or_lt bs (x :: xs).length with h | h
            · have e1 : (x :: xs).length + bs - 1
                  = ((x :: xs).length - bs) + bs - 1 + bs := by omega
              rw [e1, Nat.add_div_right _ (by omega : 0 < bs)]
            · have e1 : (x :: xs).length - bs = 0 := by omega
              rw [e1]
              have h2 : (0 + bs - 1) / bs = 0 := Nat.div_eq_of_lt (by omega)
              have h3 : ((x :: xs).length + bs - 1) / bs = 1 := by
                have := Nat.div_eq_of_lt_le
                  (by omega : 1 * bs ≤ (x :: xs).length + bs - 1)
                  (by omega : (x :: xs).length + bs - 1 < (1 + 1) * bs)
                exact this
              rw [h2, h3]
          rw [hn, List.range'_succ]
          simp only [List.foldl_cons, List.drop_zero]
          have hsh := foldl_range'_shift
            (fun (a : β) (i : Nat) => ((List.drop i (x :: xs)).take bs).foldl f a) bs
            (((List.drop bs (x :: xs)).length + bs - 1) / bs) 0 bs
            (((x :: xs).take bs).foldl f acc)
          rw [Nat.zero_add] at hsh
          rw [Nat.zero_add, hsh]
          have hbody :
              (fun (a : β) (i : Nat) => (((x :: xs).drop (i + bs)).take bs).foldl f a)
                = (fun (a : β) (i : Nat) =>
                    ((((x :: xs).drop bs).drop i).take bs).foldl f a) := by
            funext a i
            rw [List.drop_drop, Nat.add_comm bs i]
          simp only [hbody]
          rw [ih ((x :: xs).drop bs) (by rw [List.length_drop]; omega)
              (((x :: xs).take bs).foldl f acc)]
          rw [← List.foldl_append, List.take_append_drop]
          rfl

/-- For a positive step, Python `range(0, stop, step)` is the ascending list
of the `⌈stop/step⌉` multiples of `step` below `stop`. -/
theorem pyRangeZ_pos (stop : Nat) (bs : Int) (hbs : 1 ≤ bs) :
    pyRangeZ stop bs
      = Except.ok (List.range' 0 ((stop + bs.toNat - 1) / bs.toNat) bs.toNat) := by
  unfold pyRangeZ
  rw [if_neg (by omega), if_neg (by omega)]

/-- Every record processed by the per-item loop body increments exactly one
of `indexed_count`/`error_count` by exactly one. -/
theorem indexStep_sum {σ : Type} (db : VectorDb σ) (product : ProductDocument)
    (a : σ × Nat × Nat) :
    (indexStep db a product).2.1 + (indexStep db a product).2.2
      = a.2.1 + a.2.2 + 1 := by
  rcases a with ⟨s, ind, err⟩
  cases hf : ProductIndexer._product_to_text product with
  | error e => simp [indexStep, hf]; omega
  | ok text =>
      rcases hadd : db.addFn s text (metadataOf product) with ⟨s2, b⟩
      cases b
      · simp [indexStep, hf, hadd]; omega
      · simp [indexStep, hf, hadd]; omega

/-- Folding the per-item loop body over a record list adds the list length
to `indexed_count + error_count`. -/
theorem foldl_indexStep_sum {σ : Type} (db : VectorDb σ) :
    ∀ (l : List ProductDocument) (a : σ × Nat × Nat),
      (l.foldl (indexStep db) a).2.1 + (l.foldl (indexStep db) a).2.2
        = a.2.1 + a.2.2 + l.length := by
  intro l
  induction l with
  | nil => intro a; simp
  | cons p ps ih =>
      intro a
      simp only [List.foldl_cons, List.length_cons]
      rw [ih (indexStep db a p), indexStep_sum db p a]
      omega

/-- Evaluated form of `index_products` for an initialized indexer and a
positive batch size: the batch loop collapses to a single in-order pass over
the records, and the report is computed from that pass. -/
theorem index_products_pos {σ : Type} (ix : ProductIndexer σ)
    (hinit : ix.initialized = true) (products : List ProductDocument)
    (bs : Int) (hbs : 1 ≤ bs) (d : Rat) :
    ix.index_products products bs d =
      (Except.ok
        { indexed := (products.foldl (indexStep ix.db) (ix.dbState, 0, 0)).2.1
          errors := (products.foldl (indexStep ix.db) (ix.dbState, 0, 0)).2.2
          total := products.length
          duration_seconds := d
          products_per_second :=
            (((products.foldl (indexStep ix.db) (ix.dbState, 0, 0)).2.1 : Nat) : Rat)
              / max d 1 },
        (products.foldl (indexStep ix.db) (ix.dbState, 0, 0)).1) := by
  unfold ProductIndexer.index_products
  rw [hinit, if_neg (by decide : ¬ ((true : Bool) = false)),
    pyRangeZ_pos products.length bs hbs]
  simp only []
  rw [foldl_batches (indexStep ix.db) bs.toNat (by omega) products.length products
    (le_refl _) (ix.dbState, 0, 0)]

/-! ## Claim theorems -/

/-- C1: for every input list of records and every `batch_size ≥ 1`, the
report returned by `index_products` satisfies
`indexed + errors = total = length of the input list`: each record
increments exactly one of the two counters exactly once. -/
theorem records_fully_accounted {σ : Type} (ix : ProductIndexer σ)
    (hinit : ix.initialized = true) (products : List ProductDocument)
    (batch_size : Int) (hbs : 1 ≤ batch_size) (d : Rat) :
    ∃ (r : IndexingReport) (s : σ),
      ix.index_products products batch_size d = (Except.ok r, s) ∧
      r.indexed + r.errors = r.total ∧ r.total = products.length := by
  refine ⟨_, _, index_products_pos ix hinit products batch_size hbs d, ?_, rfl⟩
  simpa using foldl_indexStep_sum ix.db products (ix.dbState, 0, 0)

/-- Witness for C1 at a concrete input. -/
theorem records_fully_accounted_witness :
    ∃ (r : IndexingReport) (s : Unit),
      unitIx.index_products [mkRec 0] 1 0 = (Except.ok r, s) ∧
      r.indexed + r.errors = r.total ∧ r.total = [mkRec 0].length :=
  records_fully_accounted unitIx rfl [mkRec 0] 1 (by decide) 0

/-- C3: an error while formatting or submitting a single record is caught,
counted in `errors`, and processing continues: for every initialized indexer
and `batch_size ≥ 1`, `index_products` returns a report and never raises.
In particular a client whose `add` raises for every third record, given 10
records and `batch_size = 4`, yields `indexed = 7, errors = 3, total = 10`. -/
theorem per_item_failures_contained :
    (∀ (σ : Type) (ix : ProductIndexer σ), ix.initialized = true →
      ∀ (products : List ProductDocument) (batch_size : Int), 1 ≤ batch_size →
        ∀ (d : Rat), ∃ (r : IndexingReport) (s : σ),
          ix.index_products products batch_size d = (Except.ok r, s)) ∧
    ((everyThirdIx.index_products ((List.range 10).map mkRec) 4 0).1.toOption.map
        (fun r => (r.indexed, r.errors, r.total)) = some (7, 3, 10)) := by
  constructor
  · intro σ ix hinit products bs hbs d
    exact ⟨_, _, index_products_pos ix hinit products bs hbs d⟩
  · decide

/-- Witness for C3 at a concrete input. -/
theorem per_item_failures_contained_witness :
    ∃ (r : IndexingReport) (s : Nat),
      everyThirdIx.index_products [mkRec 0, mkRec 1] 2 0 = (Except.ok r, s) :=
  per_item_failures_contained.1 Nat everyThirdIx rfl [mkRec 0, mkRec 1] 2
    (by decide) 0

/-- C4: batch-size invariance: for a fixed input sequence and a fixed
deterministic vector-store client, `index_products` returns identical
results for every `batch_size ≥ 1`. -/
theorem batch_size_invariance {σ : Type} (ix : ProductIndexer σ)
    (hinit : ix.initialized = true) (products : List ProductDocument)
    (bs1 bs2 : Int) (h1 : 1 ≤ bs1) (h2 : 1 ≤ bs2) (d : Rat) :
    ix.index_products products bs1 d = ix.index_products products bs2 d := by
  rw [index_products_pos ix hinit products bs1 h1 d,
    index_products_pos ix hinit products bs2 h2 d]

/-- Witness for C4 at a concrete input. -/
theorem batch_size_invariance_witness :
    everyThirdIx.index_products ((List.range 10).map mkRec) 4 0
      = everyThirdIx.index_products ((List.range 10).map mkRec) 7 0 :=
  batch_size_invariance everyThirdIx rfl ((List.range 10).map mkRec) 4 7
    (by decide) (by decide) 0

/-- C5: `search` issues exactly one store call (the call log grows by
exactly the entry `(query, limit)`), returns exactly the store hits whose
score is `≥ min_score` in store order (a sublist, no re-sorting), and at
most `limit` hits whenever the store honours `limit`.  A store returning
scores [0.9, 0.6, 0.3] with `min_score = 0.5, limit = 10` yields exactly
the two hits [0.9, 0.6] in that order. -/
theorem search_one_call_filtered :
    (∀ (resp : String → Nat → List SearchHit) (log : List (String × Nat))
       (tbl query : String) (limit : Nat) (min_score : Rat),
       ∃ hits,
         ProductIndexer.search
             (ProductIndexer.initializeFn (ProductIndexer.mk0 tbl (loggingDb resp) log))
             query limit min_score
           = (Except.ok hits, log ++ [(query, limit)]) ∧
         hits = (resp query limit).filter (fun r => decide (r.score ≥ min_score)) ∧
         (∀ h ∈ hits, min_score ≤ h.score) ∧
         hits.Sublist (resp query limit) ∧
         ((resp query limit).length ≤ limit → hits.length ≤ limit)) ∧
    ((searchExIx.search "led panel" 10 (1/2)).1.toOption = some [hit09, hit06] ∧
     (searchExIx.search "led panel" 10 (1/2)).2 = [("led panel", 10)]) := by
  constructor
  · intro resp log tbl query limit min_score
    refine ⟨_, rfl, rfl, ?_, ?_, ?_⟩
    · intro h hmem
      have := List.of_mem_filter hmem
      simpa using this
    · exact List.filter_sublist _
    · intro hle
      exact le_trans (List.length_filter_le _ _) hle
  · have h9 : ((2⁻¹ : Rat) ≤ hit09.score) := by norm_num [hit09]
    have h6 : ((2⁻¹ : Rat) ≤ hit06.score) := by norm_num [hit06]
    have h3 : ¬ ((2⁻¹ : Rat) ≤ hit03.score) := by norm_num [hit03]
    refine ⟨?_, ?_⟩ <;>
      simp [searchExIx, ProductIndexer.mk0, ProductIndexer.initializeFn,
        ProductIndexer.search, loggingDb, respEx, List.filter_cons,
        Except.toOption, h9, h6, h3]

/-- Witness for C5 at a concrete input. -/
theorem search_one_call_filtered_witness :
    ∃ hits,
      ProductIndexer.search
          (ProductIndexer.initializeFn
            (ProductIndexer.mk0 "product_catalog" (loggingDb respEx) []))
          "q" 2 (1/2)
        = (Except.ok hits, [] ++ [("q", 2)]) ∧
      hits = (respEx "q" 2).filter (fun r => decide (r.score ≥ (1/2 : Rat))) ∧
      (∀ h ∈ hits, (1/2 : Rat) ≤ h.score) ∧
      hits.Sublist (respEx "q" 2) ∧
      ((respEx "q" 2).length ≤ 2 → hits.length ≤ 2) :=
  search_one_call_filtered.1 respEx [] "product_catalog" "q" 2 (1/2)

/-- C7: invoking `search` or `index_products` before `initialize` fails with
the NotReady error (the `RuntimeError` of lines 96 and 171) and leaves the
store state untouched (no store call); after `initialize` has run, `search`
never takes that branch: it always returns a result. -/
theorem not_ready_blocks_operations :
    (∀ (σ : Type) (tbl : String) (db : VectorDb σ) (s : σ)
       (query : String) (limit : Nat) (min_score : Rat),
       (ProductIndexer.mk0 tbl db s).search query limit min_score
         = (Except.error PyErr.notReady, s)) ∧
    (∀ (σ : Type) (tbl : String) (db : VectorDb σ) (s : σ)
       (products : List ProductDocument) (batch_size : Int) (d : Rat),
       (ProductIndexer.mk0 tbl db s).index_products products batch_size d
         = (Except.error PyErr.notReady, s)) ∧
    (∀ (σ : Type) (ix : ProductIndexer σ) (query : String) (limit : Nat)
       (min_score : Rat), ∃ hits s2,
       ProductIndexer.search (ProductIndexer.initializeFn ix) query limit min_score
         = (Except.ok hits, s2)) :=
  ⟨fun _ _ _ _ _ _ _ => rfl, fun _ _ _ _ _ _ _ => rfl,
    fun _ _ _ _ _ => ⟨_, _, rfl⟩⟩

/-- C8: `index_products` on the empty list returns, without raising, the
all-zero report with throughput 0 (for any nonzero batch size, in
particular the default 100). -/
theorem empty_input_zero_report {σ : Type} (ix : ProductIndexer σ)
    (hinit : ix.initialized = true) (batch_size : Int) (hbs : batch_size ≠ 0)
    (d : Rat) :
    ix.index_products [] batch_size d
      = (Except.ok
          { indexed := 0
            errors := 0
            total := 0
            duration_seconds := d
            products_per_second := 0 }, ix.dbState) := by
  rcases lt_or_le batch_size 0 with h | h
  · unfold ProductIndexer.index_products pyRangeZ
    rw [hinit, if_neg (by decide : ¬ ((true : Bool) = false)), if_neg hbs,
      if_pos h]
    simp
  · rw [index_products_pos ix hinit [] batch_size (by omega) d]
    simp

/-- Witness for C8 at a concrete input (the default batch size 100). -/
theorem empty_input_zero_report_witness :
    unitIx.index_products [] 100 0
      = (Except.ok
          { indexed := 0
            errors := 0
            total := 0
            duration_seconds := 0
            products_per_second := 0 }, unitIx.dbState) :=
  empty_input_zero_report unitIx rfl 100 (by decide) 0

/-- C9 counterexample: the code performs no input validation.  With
`batch_size = -1` (non-positive) and one record, `index_products` returns a
report (`indexed = 0, errors = 0, total = 1`) instead of failing; `search`
with an empty query returns a result, and `search` with `min_score = -1`
(outside [0,1]) returns all three store hits — none of these calls fails. -/
theorem invalid_arguments_not_rejected :
    ((unitIx.index_products [mkRec 0] (-1) 0).1.toOption.map
        (fun r => (r.indexed, r.errors, r.total)) = some (0, 0, 1)) ∧
    ((searchExIx.search "" 10 2).1.toOption.map
        (fun hits => hits.length) = some 0) ∧
    ((searchExIx.search "q" 10 (-1)).1.toOption.map
        (fun hits => hits.length) = some 3) := by
  refine ⟨by decide, ?_, ?_⟩
  · have g9 : ¬ ((2 : Rat) ≤ hit09.score) := by norm_num [hit09]
    have g6 : ¬ ((2 : Rat) ≤ hit06.score) := by norm_num [hit06]
    have g3 : ¬ ((2 : Rat) ≤ hit03.score) := by norm_num [hit03]
    simp [searchExIx, ProductIndexer.mk0, ProductIndexer.initializeFn,
      ProductIndexer.search, loggingDb, respEx, List.filter_cons,
      Except.toOption, g9, g6, g3]
  · have f9 : ((-1 : Rat) ≤ hit09.score) := by norm_num [hit09]
    have f6 : ((-1 : Rat) ≤ hit06.score) := by norm_num [hit06]
    have f3 : ((-1 : Rat) ≤ hit03.score) := by norm_num [hit03]
    simp [searchExIx, ProductIndexer.mk0, ProductIndexer.initializeFn,
      ProductIndexer.search, loggingDb, respEx, List.filter_cons,
      Except.toOption, f9, f6, f3]

/-- C9 amended: only `batch_size = 0` fails the call (the `range` step of
line 103 raises `ValueError`); a negative `batch_size` is not rejected —
the batch loop simply runs zero times and `index_products` returns a report
with `indexed = 0, errors = 0, total = len(records)`; `search` validates
neither the query nor `min_score` — for any query (including the empty
string) and any `min_score` (including values outside [0,1]) it returns a
filtered result instead of failing. -/
theorem invalid_arguments_amended {σ : Type} (ix : ProductIndexer σ)
    (hinit : ix.initialized = true) :
    (∀ (products : List ProductDocument) (d : Rat),
       ix.index_products products 0 d
         = (Except.error PyErr.valueError, ix.dbState)) ∧
    (∀ (products : List ProductDocument) (batch_size : Int), batch_size < 0 →
       ∀ (d : Rat),
         ix.index_products products batch_size d
           = (Except.ok
               { indexed := 0
                 errors := 0
                 total := products.length
                 duration_seconds := d
                 products_per_second := 0 }, ix.dbState)) ∧
    (∀ (query : String) (limit : Nat) (min_score : Rat),
       ∃ hits s2, ix.search query limit min_score = (Except.ok hits, s2)) := by
  refine ⟨?_, ?_, ?_⟩
  · intro products d
    unfold ProductIndexer.index_products pyRangeZ
    rw [hinit, if_neg (by decide : ¬ ((true : Bool) = false)), if_pos rfl]
  · intro products bs hneg d
    unfold ProductIndexer.index_products pyRangeZ
    rw [hinit, if_neg (by decide : ¬ ((true : Bool) = false)),
      if_neg (by omega : ¬ bs = 0), if_pos hneg]
    simp
  · intro query limit min_score
    refine ⟨(ix.db.searchFn ix.dbState query limit).2.filter
        (fun r => decide (r.score ≥ min_score)),
      (ix.db.searchFn ix.dbState query limit).1, ?_⟩
    unfold ProductIndexer.search
    rw [hinit, if_neg (by decide : ¬ ((true : Bool) = false))]

/-- Witness for the C9 amended claim at a concrete indexer. -/
theorem invalid_arguments_amended_witness :
    (∀ (products : List ProductDocument) (d : Rat),
       unitIx.index_products products 0 d
         = (Except.error PyErr.valueError, unitIx.dbState)) ∧
    (∀ (products : List ProductDocument) (batch_size : Int), batch_size < 0 →
       ∀ (d : Rat),
         unitIx.index_products products batch_size d
           = (Except.ok
               { indexed := 0
                 errors := 0
                 total := products.length
                 duration_seconds := d
                 products_per_second := 0 }, unitIx.dbState)) ∧
    (∀ (query : String) (limit : Nat) (min_score : Rat),
       ∃ hits s2, unitIx.search query limit min_score = (Except.ok hits, s2)) :=
  invalid_arguments_amended unitIx rfl

/-- C2 (code bug): the claim that the Document Formatter never fails for a
well-formed record is refuted by line 75: a record whose optional
`b2b_price` is absent raises `TypeError` (`None` formatted with `.2f`).
The formatter does return text when the price is present. -/
theorem formatter_fails_on_absent_price :
    ProductIndexer._product_to_text priceLessRecord
      = Except.error PyErr.typeError ∧
    (∃ t, ProductIndexer._product_to_text pricedRecord = Except.ok t) :=
  ⟨rfl, ⟨_, rfl⟩⟩

/-- C6 (code bug): the spec example record (sku "X1", `b2b_price` absent)
does not format to text containing "Category: LED > General" and "Contact
for pricing" — `_product_to_text` raises `TypeError` on it instead, because
its absent price is formatted with `.2f` on line 75. -/
theorem example_record_raises_instead_of_formatting :
    x1Record.b2b_price = none ∧
    ProductIndexer._product_to_text x1Record = Except.error PyErr.typeError :=
  ⟨rfl, rfl⟩

/-- C10: for every record whose `b2b_price` is `None`, `_product_to_text`
raises (the price conditional is literal text inside the f-string, so `None`
is formatted with `.2f`), hence the indexing loop counts the record as an
error and never submits it to the vector store (the client state is
unchanged by that record). -/
theorem absent_price_always_counted_as_error {σ : Type}
    (p : ProductDocument) (hp : p.b2b_price = none) (db : VectorDb σ)
    (s : σ) (ind err : Nat) :
    ProductIndexer._product_to_text p = Except.error PyErr.typeError ∧
    indexStep db (s, ind, err) p = (s, ind, err + 1) := by
  have h1 : ProductIndexer._product_to_text p = Except.error PyErr.typeError := by
    simp [ProductIndexer._product_to_text, hp]
  exact ⟨h1, by simp [indexStep, h1]⟩

/-- Witness for C10 at a concrete input. -/
theorem absent_price_always_counted_as_error_witness :
    ProductIndexer._product_to_text priceLessRecord
      = Except.error PyErr.typeError ∧
    indexStep unitDb ((), 5, 7) priceLessRecord = ((), 5, 7 + 1) :=
  absent_price_always_counted_as_error priceLessRecord rfl unitDb () 5 7
